import Mathlib

/-!
Verification of the DeepCode dashboard core (`ui/components.py`):
the log-file selector and tailer of `render_log_viewer`, and the guided
requirement-elicitation state machine of `guided_requirement_workflow` /
`reset_guided_workflow_state`.  Times are modelled as integer seconds,
Python dicts as association lists, and Streamlit session state as an
explicit record threaded through the transition functions.
-/

/-! ## Log file selector (`render_log_viewer`, lines 529-574) -/

/-- One candidate log file: its path and its `stat().st_mtime`
(modelled in whole seconds). -/
structure LogFile where
  path : String
  mtime : Int
deriving DecidableEq, Repr

/-- The tolerance window of `render_log_viewer`: `tolerance = 10.0`. -/
def tolerance : Int := 10

/-- Ordering used by `sorted(log_files, key=lambda p: p.stat().st_mtime,
reverse=True)`: `a` may come before `b` when `a`'s mtime is at least `b`'s. -/
def mtimeGE (a b : LogFile) : Prop := b.mtime ≤ a.mtime

instance : DecidableRel mtimeGE := fun a b =>
  inferInstanceAs (Decidable (b.mtime ≤ a.mtime))

instance : IsTotal LogFile mtimeGE := ⟨fun a b => le_total b.mtime a.mtime⟩

instance : IsTrans LogFile mtimeGE := ⟨fun _ _ _ hab hbc => le_trans hbc hab⟩

/-- `sorted(log_files, key=lambda p: p.stat().st_mtime, reverse=True)`:
a stable sort by modification time, newest first.  Python's `sorted` is a
stable sort, and a stable sort's output is uniquely determined by the key
order, so the structurally recursive `List.insertionSort` (which is stable
the same way) is an exact model. -/
def sortedByMtimeDesc (files : List LogFile) : List LogFile :=
  List.insertionSort mtimeGE files

/-- Python truthiness of `st.session_state.get("workflow_start_time")`:
`None` and `0` are both falsy in `if start_ts:`. -/
def startTruthy : Option Int → Bool
  | none => false
  | some t => t != 0

/-- The four outcomes of the selector part of `render_log_viewer`:
missing directory, empty candidate set, "waiting for new log", or a
selected file path. -/
inductive LogSelection where
  | noDir
  | noFiles
  | waiting
  | selected (path : String)
deriving DecidableEq, Repr

/-- Selector outcome together with the value of
`st.session_state.active_log_file` after the call. -/
structure ResolveResult where
  outcome : LogSelection
  active : Option String
deriving DecidableEq, Repr

/-- The `if start_ts:` branch: scan the descending-sorted candidates and
take the first one whose mtime is within the tolerance window
(`file_mtime >= start_ts - tolerance`); if none qualifies the selector
reports `waiting` and leaves `active_log_file` untouched. -/
def selectWithStart (t : Int) (sorted : List LogFile) (activeLog : Option String) :
    ResolveResult :=
  match sorted.find? (fun f => decide (t - tolerance ≤ f.mtime)) with
  | some f => ⟨.selected f.path, some f.path⟩
  | none => ⟨.waiting, activeLog⟩

/-- The `else` branch: prefer the remembered `active_log_file` when it is
truthy and still exists on disk, otherwise fall back to the newest file
(`log_files[0]`).  `prevExists` models `Path(prev).exists()`. -/
def selectWithoutStart (first : LogFile) (activeLog : Option String)
    (prevExists : Bool) : ResolveResult :=
  match activeLog with
  | some p =>
    if p != "" && prevExists then ⟨.selected p, some p⟩
    else ⟨.selected first.path, some first.path⟩
  | none => ⟨.selected first.path, some first.path⟩

/-- The selection logic of `render_log_viewer` (lines 532-574):
directory check, candidate enumeration sorted newest-first, the
tolerance-window scan when a workflow start time is set, and the
remembered-file fallback otherwise.  `active_log_file` is persisted only
when a file is actually selected (line 574 runs after the early returns). -/
def resolveLog (dirExists : Bool) (files : List LogFile) (startTs : Option Int)
    (activeLog : Option String) (prevExists : Bool) : ResolveResult :=
  if !dirExists then ⟨.noDir, activeLog⟩
  else
    match sortedByMtimeDesc files with
    | [] => ⟨.noFiles, activeLog⟩
    | first :: rest =>
      if startTruthy startTs then
        selectWithStart (startTs.getD 0) (first :: rest) activeLog
      else
        selectWithoutStart first activeLog prevExists

/-! ## Log tailer (`render_log_viewer`, lines 576-653) -/

/-- Python whitespace for `str.strip()` (space, tab and the ASCII line
and page separators). -/
def isPySpace (c : Char) : Bool :=
  c == ' ' || c == '\t' || c == '\n' || c == '\r' || c == '\x0b' || c == '\x0c'

/-- Python `str.strip()`: drop leading and trailing whitespace. -/
def pyStrip (s : String) : String :=
  String.mk (((s.data.dropWhile isPySpace).reverse.dropWhile isPySpace).reverse)

/-- Python `s[:n]`: the first `n` characters. -/
def pyTakeStr (n : Nat) (s : String) : String :=
  String.mk (s.data.take n)

/-- Python `s[-n:]`: the last `n` characters (the whole string when it is
shorter). -/
def pyLastChars (n : Nat) (s : String) : String :=
  String.mk (s.data.drop (s.data.length - n))

/-- Python `str.splitlines()` worker over the character list, carrying the
(reversed) current line.  Recognises the line breaks the log writer can
emit: `\n`, `\r\n` and `\r`. -/
def splitlinesGo : List Char → List Char → List String
  | [], cur => [String.mk cur.reverse]
  | '\r' :: '\n' :: rest, cur =>
    String.mk cur.reverse :: (if rest.isEmpty then [] else splitlinesGo rest [])
  | '\n' :: rest, cur =>
    String.mk cur.reverse :: (if rest.isEmpty then [] else splitlinesGo rest [])
  | '\r' :: rest, cur =>
    String.mk cur.reverse :: (if rest.isEmpty then [] else splitlinesGo rest [])
  | c :: rest, cur => splitlinesGo rest (c :: cur)

/-- Python `content.splitlines()`: no trailing empty line for a trailing
line break, and `""` yields `[]`. -/
def pySplitlines (s : String) : List String :=
  match s.data with
  | [] => []
  | cs => splitlinesGo cs []

/-- Python `lines[-max_lines:]`.  At `0` Python's `lines[-0:]` is the whole
list (the dashboard always calls with the default `50`). -/
def pyTailSlice (n : Nat) (l : List α) : List α :=
  if n = 0 then l else l.drop (l.length - n)

/-- `lines = content.splitlines(); tail_lines = lines[-max_lines:]`. -/
def tailLines (maxLines : Nat) (content : String) : List String :=
  pyTailSlice maxLines (pySplitlines content)

/-- A parsed structured log record: the four fields `json.loads` hands to
the renderer, each `none` when the key is absent from the JSON object
(the field `ns` stands for the source's `namespace` key). -/
structure LogEvent where
  timestamp : Option String := none
  level : Option String := none
  message : Option String := none
  ns : Option String := none
deriving DecidableEq, Repr

/-- Python `s.upper()` on the ASCII level tags the log writer emits. -/
def pyUpper (s : String) : String :=
  String.mk (s.data.map Char.toUpper)

/-- Python `needle in hay` for strings: substring containment. -/
def containsSub (needle hay : List Char) : Bool :=
  match hay with
  | [] => needle.isEmpty
  | _ :: t => needle.isPrefixOf hay || containsSub needle t

/-- The severity-to-colour mapping of `render_log_viewer` (lines 611-619):
exact `ERROR`, exact `WARNING`, any level containing `SUCCESS` after
upper-casing, else the default colour. -/
def levelColor (level : String) : String :=
  if level = "ERROR" then "#ff4444"
  else if level = "WARNING" then "#ffaa00"
  else if containsSub "SUCCESS".data (pyUpper level).data then "#00ff88"
  else "#00d4ff"

/-- Python `s.split(sep)` for a single-character separator: always at
least one part, empty parts preserved. -/
def splitCharList (sep : Char) : List Char → List (List Char)
  | [] => [[]]
  | c :: rest =>
    let r := splitCharList sep rest
    if c = sep then [] :: r
    else
      match r with
      | [] => [[c]]
      | h :: t => (c :: h) :: t

/-- `timestamp.split("T")[-1][:12] if "T" in timestamp else timestamp[-12:]`. -/
def timeStrOfTimestamp (timestamp : String) : String :=
  if timestamp.data.contains 'T' then
    pyTakeStr 12 (String.mk ((splitCharList 'T' timestamp.data).getLastD []))
  else pyLastChars 12 timestamp

/-- `namespace.split(".")[-1] if namespace else ""` (the `namespace` key
of the record; empty string is falsy). -/
def nsShortOf (ns : String) : String :=
  if ns = "" then "" else String.mk ((splitCharList '.' ns.data).getLastD [])

/-- A rendered log row: either a classified structured record (time text,
level tag, shortened source name, severity colour, message truncated
to 200 characters) or the raw-text fallback for an unparseable line. -/
inductive RenderedLine where
  | classified (timeStr levelTag nsShort color messageText : String)
  | raw (text : String)
deriving DecidableEq, Repr

/-- The body of the per-line loop for a non-blank (already stripped) line:
`json.loads` success builds the classified row from the four `event.get`
fields with their defaults; `json.JSONDecodeError` falls back to the raw
line truncated to 200 characters.  The JSON library call is abstracted as
the function `jsonParse`. -/
def renderNonBlank (jsonParse : String → Option LogEvent) (line : String) :
    RenderedLine :=
  match jsonParse line with
  | some event =>
    let timestamp := event.timestamp.getD ""
    let level := event.level.getD "INFO"
    let message := event.message.getD ""
    let ns := event.ns.getD ""
    .classified (timeStrOfTimestamp timestamp) level (nsShortOf ns)
      (levelColor level) (pyTakeStr 200 message)
  | none => .raw (pyTakeStr 200 line)

/-- One iteration of the tail loop (lines 599-642): strip the line, skip
it when blank, otherwise render it. -/
def renderLine (jsonParse : String → Option LogEvent) (line0 : String) :
    Option RenderedLine :=
  let line := pyStrip line0
  if line = "" then none else some (renderNonBlank jsonParse line)

/-- The full tail pipeline: last `maxLines` raw lines of the file content,
each stripped, blank lines skipped, the rest rendered in order. -/
def renderedRecords (jsonParse : String → Option LogEvent) (maxLines : Nat)
    (content : String) : List RenderedLine :=
  (tailLines maxLines content).filterMap (renderLine jsonParse)

/-! ## Guided requirement workflow
(`guided_requirement_workflow`, `reset_guided_workflow_state`) -/

/-- The four values of `st.session_state.requirement_analysis_step`. -/
inductive WorkflowStep where
  | input
  | questions
  | summary
  | editing
deriving DecidableEq, Repr

/-- One generated question: either a dict (with the optional id fields the
code probes in order, plus the display fields) or a plain non-dict value
rendered via `str(question)`. -/
structure QuestionDict where
  id : Option String := none
  question_id : Option String := none
  qid : Option String := none
  question : Option String := none
  content : Option String := none
  category : Option String := none
  importance : Option String := none
  hint : Option String := none
deriving DecidableEq, Repr

/-- `isinstance(question, dict)` distinction in the questions loop. -/
inductive GuidedQuestion where
  | dict (q : QuestionDict)
  | text (s : String)
deriving DecidableEq, Repr

/-- The session-state fields owned by the guided requirement workflow.
`answerInputs` models the `guided_answer_{idx}` text-area widgets,
indexed by question position. -/
structure Session where
  step : WorkflowStep := .input
  initialRequirement : String := ""
  guidedInitial : String := ""
  generatedQuestions : List GuidedQuestion := []
  answerInputs : List String := []
  userAnswers : List (String × String) := []
  detailedRequirements : String := ""
  questionsGenerating : Bool := false
  requirementsGenerating : Bool := false
  requirementsConfirmed : Bool := false
  requirementsEditing : Bool := false
  editFeedback : String := ""
  guidedEditFeedback : String := ""
  confirmedRequirementText : Option String := none
deriving DecidableEq, Repr

/-- Python truthiness on an optional string: `None` and `""` are falsy. -/
def pyTruthyStr : Option String → Option String
  | some s => if s = "" then none else some s
  | none => none

/-- `str(question.get("id") or question.get("question_id") or
question.get("qid") or idx)` for a dict, `str(idx)` otherwise. -/
def questionIdOf (idx : Nat) : GuidedQuestion → String
  | .dict q =>
    match pyTruthyStr q.id with
    | some v => v
    | none =>
      match pyTruthyStr q.question_id with
      | some v => v
      | none =>
        match pyTruthyStr q.qid with
        | some v => v
        | none => toString idx
  | .text _ => toString idx

/-- Python dict insertion `m[k] = v`: replace an existing key in place,
else append. -/
def dictInsert (m : List (String × String)) (k v : String) :
    List (String × String) :=
  if m.any (fun p => p.1 == k) then
    m.map (fun p => if p.1 == k then (p.1, v) else p)
  else m ++ [(k, v)]

/-- The `answers_payload` loop (lines 830-836): for each question index,
take the `guided_answer_{idx}` widget value, strip it, and keep it under
the question id when non-empty. -/
def buildAnswers (qids : List String) (inputs : List String) :
    List (String × String) :=
  (qids.enum).foldl
    (fun m p =>
      let v := pyStrip (inputs.getD p.1 "")
      if v = "" then m else dictInsert m p.2 v)
    []

/-- `reset_guided_workflow_state(preserve_initial)` (lines 656-681):
restore every workflow field to its default; `initial_requirement` and the
input text area are cleared only when `preserve_initial` is false.
`clear_guided_answer_inputs()` drops all answer widgets. -/
def reset_guided_workflow_state (preserveInitial : Bool) (s : Session) :
    Session :=
  let initialText := if preserveInitial then s.guidedInitial else ""
  { step := .input
    initialRequirement := if preserveInitial then s.initialRequirement else ""
    guidedInitial := initialText
    generatedQuestions := []
    answerInputs := []
    userAnswers := []
    detailedRequirements := ""
    questionsGenerating := false
    requirementsGenerating := false
    requirementsConfirmed := false
    requirementsEditing := false
    editFeedback := ""
    guidedEditFeedback := ""
    confirmedRequirementText := none }

/-- Each trigger returns the new session plus the validation warning shown
via `st.warning`, if any.  A trigger fired outside the stage whose
controls render it is a no-op (the button does not exist there). -/
abbrev TriggerResult := Session × Option String

/-- "生成引导问题" (generate questions, lines 748-764): guarded on a
non-blank description; on success snapshots the stripped description,
marks questions as generating, moves to the questions stage and clears
all later-stage data including the confirmed document. -/
def trigger_generate_questions (s : Session) : TriggerResult :=
  if s.step ≠ .input then (s, none)
  else if pyStrip s.guidedInitial = "" then (s, some "请先输入您的项目需求。")
  else
    ({ s with
        initialRequirement := pyStrip s.guidedInitial
        questionsGenerating := true
        step := .questions
        generatedQuestions := []
        userAnswers := []
        detailedRequirements := ""
        confirmedRequirementText := none
        requirementsGenerating := false
        requirementsConfirmed := false
        requirementsEditing := false
        editFeedback := ""
        answerInputs := [] }, none)

/-- "跳过问答并使用当前规范" (skip to spec, lines 767-777): guarded on a
non-blank description; locks the stripped description in as the confirmed
document without leaving the input stage. -/
def trigger_skip_to_spec (s : Session) : TriggerResult :=
  if s.step ≠ .input then (s, none)
  else if pyStrip s.guidedInitial = "" then (s, some "请先输入您的项目需求。")
  else
    ({ s with
        initialRequirement := pyStrip s.guidedInitial
        confirmedRequirementText := some (pyStrip s.guidedInitial)
        requirementsConfirmed := true }, none)

/-- "生成需求文档" (generate doc from answers, lines 827-844): disabled
while no questions exist; snapshots the non-empty stripped answers keyed
by question id, marks the document as generating and moves to summary,
clearing any previous document and confirmation. -/
def trigger_generate_doc_from_answers (s : Session) : TriggerResult :=
  if s.step ≠ .questions then (s, none)
  else if s.generatedQuestions = [] then (s, none)
  else
    let qids :=
      (s.generatedQuestions.enum).map (fun p => questionIdOf p.1 p.2)
    ({ s with
        userAnswers := buildAnswers qids s.answerInputs
        requirementsGenerating := true
        step := .summary
        detailedRequirements := ""
        confirmedRequirementText := none
        requirementsConfirmed := false }, none)

/-- "不回答直接生成" (generate doc without answers, lines 847-856): as
above but with an empty answers snapshot. -/
def trigger_generate_doc_without_answers (s : Session) : TriggerResult :=
  if s.step ≠ .questions then (s, none)
  else if s.generatedQuestions = [] then (s, none)
  else
    ({ s with
        userAnswers := []
        requirementsGenerating := true
        step := .summary
        detailedRequirements := ""
        confirmedRequirementText := none
        requirementsConfirmed := false }, none)

/-- "返回步骤 1" (back, lines 859-861): full reset preserving the
description. -/
def trigger_back (s : Session) : TriggerResult :=
  if s.step ≠ .questions then (s, none)
  else (reset_guided_workflow_state true s, none)

/-- "确认并开始实施" (confirm, lines 884-897): disabled while the stripped
generated document is empty; confirms it (falling back to
`initial_requirement`, rechecked non-blank) without leaving summary. -/
def trigger_confirm (s : Session) : TriggerResult :=
  if s.step ≠ .summary then (s, none)
  else
    let summary := pyStrip s.detailedRequirements
    if summary = "" then (s, none)
    else
      let finalDoc := if summary ≠ "" then summary else s.initialRequirement
      if pyStrip finalDoc ≠ "" then
        ({ s with
            confirmedRequirementText := some (pyStrip finalDoc)
            requirementsConfirmed := true }, none)
      else (s, some "暂无需求文档可用。")

/-- "请求编辑" (request edit, lines 900-902): disabled while the document
is empty; moves to editing and clears the feedback text area. -/
def trigger_request_edit (s : Session) : TriggerResult :=
  if s.step ≠ .summary then (s, none)
  else if pyStrip s.detailedRequirements = "" then (s, none)
  else ({ s with step := .editing, guidedEditFeedback := "" }, none)

/-- "重新开始问答" (restart, lines 905-907): full reset preserving the
description. -/
def trigger_restart (s : Session) : TriggerResult :=
  if s.step ≠ .summary then (s, none)
  else (reset_guided_workflow_state true s, none)

/-- "提交更改请求" (submit change, lines 920-926): guarded on non-blank
feedback; stores the stripped feedback and marks editing in flight,
leaving the stage unchanged. -/
def trigger_submit_change (s : Session) : TriggerResult :=
  if s.step ≠ .editing then (s, none)
  else if pyStrip s.guidedEditFeedback = "" then
    (s, some "请描述您请求的更改。")
  else
    ({ s with
        editFeedback := pyStrip s.guidedEditFeedback
        requirementsEditing := true }, none)

/-- "返回需求文档" (back to summary, lines 929-931): return to summary and
clear the feedback text area. -/
def trigger_back_to_summary (s : Session) : TriggerResult :=
  if s.step ≠ .editing then (s, none)
  else ({ s with step := .summary, guidedEditFeedback := "" }, none)

/-! ### Helper lemmas about the sorted candidate list -/

theorem sortedByMtimeDesc_perm (files : List LogFile) :
    List.Perm (sortedByMtimeDesc files) files :=
  List.perm_insertionSort mtimeGE files

theorem sortedByMtimeDesc_pairwise (files : List LogFile) :
    (sortedByMtimeDesc files).Pairwise mtimeGE :=
  List.sorted_insertionSort mtimeGE files

theorem sortedByMtimeDesc_eq_nil_iff (files : List LogFile) :
    sortedByMtimeDesc files = [] ↔ files = [] := by
  constructor
  · intro h
    have hp := sortedByMtimeDesc_perm files
    rw [h] at hp
    exact (List.nil_perm.mp hp)
  · intro h
    subst h
    rfl

/-- In a list sorted by descending mtime, the first element satisfying a
predicate has maximal mtime among all satisfying elements. -/
theorem find?_mtime_max (p : LogFile → Bool) (l : List LogFile)
    (hs : l.Pairwise mtimeGE) (f : LogFile)
    (hf : l.find? p = some f) :
    ∀ g ∈ l, p g = true → g.mtime ≤ f.mtime := by
  induction l with
  | nil => simp at hf
  | cons a rest ih =>
    rcases List.pairwise_cons.mp hs with ⟨ha, hrest⟩
    by_cases hpa : p a = true
    · rw [List.find?_cons_of_pos _ hpa] at hf
      cases hf
      intro g hg _
      rcases List.mem_cons.mp hg with h | h
      · exact h ▸ le_refl _
      · exact ha g h
    · rw [List.find?_cons_of_neg _ (by simpa using hpa)] at hf
      intro g hg hpg
      rcases List.mem_cons.mp hg with h | h
      · exact absurd (h ▸ hpg) hpa
      · exact ih hrest hf g h hpg

theorem head_mtime_max (files : List LogFile) (first : LogFile) (rest : List LogFile)
    (hs : sortedByMtimeDesc files = first :: rest) :
    first ∈ files ∧ ∀ g ∈ files, g.mtime ≤ first.mtime := by
  have hperm := sortedByMtimeDesc_perm files
  rw [hs] at hperm
  refine ⟨hperm.mem_iff.mp (List.mem_cons_self _ _), ?_⟩
  intro g hg
  have hg' : g ∈ first :: rest := hperm.mem_iff.mpr hg
  rcases List.mem_cons.mp hg' with h | h
  · exact h ▸ le_refl _
  · have hp := sortedByMtimeDesc_pairwise files
    rw [hs] at hp
    exact (List.pairwise_cons.mp hp).1 g h

theorem resolveLog_noDir (files : List LogFile) (startTs : Option Int)
    (activeLog : Option String) (prevExists : Bool) :
    resolveLog false files startTs activeLog prevExists = ⟨.noDir, activeLog⟩ :=
  rfl

theorem resolveLog_noFiles (startTs : Option Int)
    (activeLog : Option String) (prevExists : Bool) :
    resolveLog true [] startTs activeLog prevExists = ⟨.noFiles, activeLog⟩ :=
  rfl

theorem resolveLog_cons (files : List LogFile) (startTs : Option Int)
    (activeLog : Option String) (prevExists : Bool) (first : LogFile)
    (rest : List LogFile) (hs : sortedByMtimeDesc files = first :: rest) :
    resolveLog true files startTs activeLog prevExists =
      if startTruthy startTs then
        selectWithStart (startTs.getD 0) (first :: rest) activeLog
      else
        selectWithoutStart first activeLog prevExists := by
  unfold resolveLog
  rw [hs]
  rfl

/-! ## Claim theorems: log selector -/

/-- C1: for a non-empty candidate set (distinct paths) and a provided
(non-zero) workflow start time, when some candidate's mtime reaches
`start − tolerance` the selector picks exactly the most recently modified
such candidate, records it as active, and never picks a file modified
strictly before the window. -/
theorem C1_tolerance_selection (files : List LogFile) (t : Int)
    (activeLog : Option String) (prevExists : Bool)
    (hnodup : (files.map LogFile.path).Nodup)
    (ht : t ≠ 0) (g0 : LogFile) (hg0 : g0 ∈ files)
    (hq0 : t - tolerance ≤ g0.mtime) :
    ∃ f ∈ files,
      resolveLog true files (some t) activeLog prevExists =
        ⟨.selected f.path, some f.path⟩ ∧
      t - tolerance ≤ f.mtime ∧
      (∀ g ∈ files, t - tolerance ≤ g.mtime → g.mtime ≤ f.mtime) ∧
      (∀ g ∈ files, g.mtime < t - tolerance → g.path ≠ f.path) := by
  have hperm := sortedByMtimeDesc_perm files
  have hmem : g0 ∈ sortedByMtimeDesc files := hperm.mem_iff.mpr hg0
  have hsome :
      ((sortedByMtimeDesc files).find?
        (fun f => decide (t - tolerance ≤ f.mtime))).isSome :=
    List.find?_isSome.mpr ⟨g0, hmem, by simpa using hq0⟩
  obtain ⟨f, hfind⟩ := Option.isSome_iff_exists.mp hsome
  have hfmem : f ∈ files := hperm.mem_iff.mp (List.mem_of_find?_eq_some hfind)
  have hfq : t - tolerance ≤ f.mtime := by simpa using List.find?_some hfind
  obtain ⟨first, rest, hsorted⟩ : ∃ a l, sortedByMtimeDesc files = a :: l := by
    cases hsC : sortedByMtimeDesc files with
    | nil =>
      rw [sortedByMtimeDesc_eq_nil_iff] at hsC
      subst hsC
      simp at hg0
    | cons a l => exact ⟨a, l, rfl⟩
  refine ⟨f, hfmem, ?_, hfq, ?_, ?_⟩
  · rw [resolveLog_cons files (some t) activeLog prevExists first rest hsorted]
    have hstart : startTruthy (some t) = true := by simp [startTruthy, ht]
    rw [if_pos hstart]
    show selectWithStart t (first :: rest) activeLog = _
    unfold selectWithStart
    rw [← hsorted, hfind]
  · intro g hg hgq
    exact find?_mtime_max _ _ (sortedByMtimeDesc_pairwise files) f hfind g
      (hperm.mem_iff.mpr hg) (by simpa using hgq)
  · intro g hg hlt heq
    have hgf : g = f := List.inj_on_of_nodup_map hnodup hg hfmem heq
    rw [hgf] at hlt
    exact absurd hfq (not_le.mpr hlt)

theorem C1_tolerance_selection_witness :
    ∃ f ∈ [LogFile.mk "a.jsonl" 70, LogFile.mk "c.jsonl" 102,
           LogFile.mk "b.jsonl" 95],
      resolveLog true
        [LogFile.mk "a.jsonl" 70, LogFile.mk "c.jsonl" 102,
         LogFile.mk "b.jsonl" 95] (some 100) none false =
        ⟨.selected f.path, some f.path⟩ ∧
      (100 : Int) - tolerance ≤ f.mtime ∧
      (∀ g ∈ [LogFile.mk "a.jsonl" 70, LogFile.mk "c.jsonl" 102,
              LogFile.mk "b.jsonl" 95],
        (100 : Int) - tolerance ≤ g.mtime → g.mtime ≤ f.mtime) ∧
      (∀ g ∈ [LogFile.mk "a.jsonl" 70, LogFile.mk "c.jsonl" 102,
              LogFile.mk "b.jsonl" 95],
        g.mtime < (100 : Int) - tolerance → g.path ≠ f.path) :=
  C1_tolerance_selection _ 100 none false (by decide) (by decide)
    (LogFile.mk "b.jsonl" 95) (by decide) (by decide)

/-- C6: with no workflow start time, the selector returns the remembered
active file when it is still on disk, and otherwise the most recently
modified candidate. -/
theorem C6_fallback_selection (files : List LogFile) (activeLog : Option String)
    (prevExists : Bool) (hne : files ≠ []) :
    (∀ p, activeLog = some p → p ≠ "" → prevExists = true →
      resolveLog true files none activeLog prevExists =
        ⟨.selected p, some p⟩) ∧
    ((activeLog = none ∨ activeLog = some "" ∨ prevExists = false) →
      ∃ f ∈ files,
        resolveLog true files none activeLog prevExists =
          ⟨.selected f.path, some f.path⟩ ∧
        ∀ g ∈ files, g.mtime ≤ f.mtime) := by
  obtain ⟨first, rest, hsorted⟩ : ∃ a l, sortedByMtimeDesc files = a :: l := by
    cases hsC : sortedByMtimeDesc files with
    | nil => exact absurd ((sortedByMtimeDesc_eq_nil_iff files).mp hsC) hne
    | cons a l => exact ⟨a, l, rfl⟩
  have hre : resolveLog true files none activeLog prevExists =
      selectWithoutStart first activeLog prevExists := by
    rw [resolveLog_cons files none activeLog prevExists first rest hsorted]
    rfl
  obtain ⟨hfirstmem, hfirstmax⟩ := head_mtime_max files first rest hsorted
  constructor
  · intro p hp hpne hpe
    subst hp
    subst hpe
    rw [hre]
    unfold selectWithoutStart
    simp [hpne]
  · intro hcase
    refine ⟨first, hfirstmem, ?_, hfirstmax⟩
    rw [hre]
    unfold selectWithoutStart
    rcases hcase with h | h | h
    · subst h; rfl
    · subst h; rfl
    · subst h
      cases activeLog with
      | none => rfl
      | some p => simp

theorem C6_fallback_selection_witness :
    resolveLog true [LogFile.mk "a.jsonl" 70, LogFile.mk "b.jsonl" 95] none
        (some "a.jsonl") true =
      ⟨.selected "a.jsonl", some "a.jsonl"⟩ ∧
    ∃ f ∈ [LogFile.mk "a.jsonl" 70, LogFile.mk "b.jsonl" 95],
      resolveLog true [LogFile.mk "a.jsonl" 70, LogFile.mk "b.jsonl" 95] none
          none false =
        ⟨.selected f.path, some f.path⟩ ∧
      ∀ g ∈ [LogFile.mk "a.jsonl" 70, LogFile.mk "b.jsonl" 95],
        g.mtime ≤ f.mtime :=
  ⟨(C6_fallback_selection _ (some "a.jsonl") true (by decide)).1 "a.jsonl"
      rfl (by decide) rfl,
    (C6_fallback_selection _ none false (by decide)).2 (Or.inl rfl)⟩

/-- C7: a missing directory and an empty candidate set are the two "none"
empty outcomes, while candidates all older than the tolerance window of a
provided start time give the distinct "waiting for new log" outcome; none
of these selects a file. -/
theorem C7_empty_outcomes :
    (∀ files startTs activeLog prevExists,
      resolveLog false files startTs activeLog prevExists =
        ⟨.noDir, activeLog⟩) ∧
    (∀ startTs activeLog prevExists,
      resolveLog true [] startTs activeLog prevExists =
        ⟨.noFiles, activeLog⟩) ∧
    (∀ files t activeLog prevExists, files ≠ [] → t ≠ 0 →
      (∀ g ∈ files, g.mtime < t - tolerance) →
      resolveLog true files (some t) activeLog prevExists =
        ⟨.waiting, activeLog⟩) ∧
    LogSelection.noDir ≠ .waiting ∧ LogSelection.noFiles ≠ .waiting ∧
    (∀ p, LogSelection.noDir ≠ .selected p) ∧
    (∀ p, LogSelection.noFiles ≠ .selected p) ∧
    (∀ p, LogSelection.waiting ≠ .selected p) := by
  refine ⟨fun files startTs a pe => resolveLog_noDir files startTs a pe,
    fun startTs a pe => resolveLog_noFiles startTs a pe,
    ?_, by decide, by decide, fun p => by simp, fun p => by simp,
    fun p => by simp⟩
  intro files t activeLog prevExists hne ht hold
  obtain ⟨first, rest, hsorted⟩ : ∃ a l, sortedByMtimeDesc files = a :: l := by
    cases hsC : sortedByMtimeDesc files with
    | nil => exact absurd ((sortedByMtimeDesc_eq_nil_iff files).mp hsC) hne
    | cons a l => exact ⟨a, l, rfl⟩
  rw [resolveLog_cons files (some t) activeLog prevExists first rest hsorted]
  have hstart : startTruthy (some t) = true := by simp [startTruthy, ht]
  rw [if_pos hstart]
  show selectWithStart t (first :: rest) activeLog = _
  unfold selectWithStart
  have hnone : (first :: rest).find?
      (fun f => decide (t - tolerance ≤ f.mtime)) = none := by
    rw [List.find?_eq_none]
    intro x hx
    have hxf : x ∈ files :=
      (sortedByMtimeDesc_perm files).mem_iff.mp (hsorted ▸ hx)
    simpa using not_le.mpr (hold x hxf)
  rw [hnone]

theorem C7_empty_outcomes_witness :
    resolveLog false [] none none false = ⟨.noDir, none⟩ ∧
    resolveLog true [] none (some "p.jsonl") false =
      ⟨.noFiles, some "p.jsonl"⟩ ∧
    resolveLog true [LogFile.mk "old.jsonl" 50] (some 100)
        (some "p.jsonl") true =
      ⟨.waiting, some "p.jsonl"⟩ :=
  ⟨C7_empty_outcomes.1 [] none none false,
    C7_empty_outcomes.2.1 none (some "p.jsonl") false,
    C7_empty_outcomes.2.2.1 [LogFile.mk "old.jsonl" 50] 100 (some "p.jsonl")
      true (by decide) (by decide) (by decide)⟩

/-- C10: the remembered `active_log_file` changes only when the selector
actually resolves a file; every non-selected outcome (missing directory,
empty set, waiting) leaves it exactly unchanged. -/
theorem C10_active_log_frame (dirExists : Bool) (files : List LogFile)
    (startTs : Option Int) (activeLog : Option String) (prevExists : Bool) :
    (resolveLog dirExists files startTs activeLog prevExists).active =
      match (resolveLog dirExists files startTs activeLog prevExists).outcome
        with
      | .selected p => some p
      | _ => activeLog := by
  unfold resolveLog
  split
  · rfl
  · split
    · rfl
    · split
      · unfold selectWithStart
        split <;> rfl
      · unfold selectWithoutStart
        split
        · split <;> rfl
        · rfl

/-! ## Claim theorems: log tailer -/

theorem filterMap_renderLine (jsonParse : String → Option LogEvent)
    (l : List String) :
    l.filterMap (renderLine jsonParse) =
      ((l.map pyStrip).filter (fun x => x != "")).map
        (renderNonBlank jsonParse) := by
  induction l with
  | nil => rfl
  | cons a t ih =>
    by_cases h : pyStrip a = ""
    · simp [List.filterMap_cons, renderLine, h, ih]
    · simp [List.filterMap_cons, renderLine, h, ih]

/-- C4: refuted: the tailer slices the last `maxLines` raw lines first and
only then discards blank ones, so a file with a single non-blank line
(`k = 1 ≤ 50`) followed by 50 blank lines returns no records at all — the
newest non-blank line is dropped. -/
theorem C4_counterexample :
    ((pySplitlines (String.mk ('a' :: List.replicate 51 '\n'))).filter
        (fun l => pyStrip l != "")) = ["a"] ∧
    renderedRecords (fun _ => none) 50
        (String.mk ('a' :: List.replicate 51 '\n')) = [] := by
  decide

/-- C4 (amended): with `maxLines = 50` the tailer returns, in original
order, the stripped non-blank lines among the last 50 raw lines of the
file; in particular when the file has at most 50 raw lines it returns all
of its non-blank lines in original order. -/
theorem C4_amended_tail (jsonParse : String → Option LogEvent)
    (content : String) :
    renderedRecords jsonParse 50 content =
      (((tailLines 50 content).map pyStrip).filter (fun l => l != "")).map
        (renderNonBlank jsonParse) ∧
    ((pySplitlines content).length ≤ 50 →
      renderedRecords jsonParse 50 content =
        (((pySplitlines content).map pyStrip).filter (fun l => l != "")).map
          (renderNonBlank jsonParse)) := by
  constructor
  · exact filterMap_renderLine jsonParse _
  · intro hlen
    have htail : tailLines 50 content = pySplitlines content := by
      unfold tailLines pyTailSlice
      rw [if_neg (by decide), Nat.sub_eq_zero_of_le hlen, List.drop_zero]
    unfold renderedRecords
    rw [htail, filterMap_renderLine]

theorem C4_amended_tail_witness :
    (pySplitlines "x\n\ny").length ≤ 50 ∧
    renderedRecords (fun _ => none) 50 "x\n\ny" =
      (((pySplitlines "x\n\ny").map pyStrip).filter (fun l => l != "")).map
        (renderNonBlank (fun _ => none)) :=
  ⟨by decide, (C4_amended_tail (fun _ => none) "x\n\ny").2 (by decide)⟩

/-- C5: a non-blank tailed line that parses as a structured record yields
the classified row with the severity-to-colour mapping
ERROR/WARNING/contains-SUCCESS/other, and a non-blank line that fails to
parse yields the raw-text row holding the (stripped) line truncated to
200 characters; either way the line yields a record. -/
theorem C5_parse_fallback (jsonParse : String → Option LogEvent)
    (line : String) (hnb : pyStrip line ≠ "") :
    (∀ event, jsonParse (pyStrip line) = some event →
      renderLine jsonParse line = some (.classified
        (timeStrOfTimestamp (event.timestamp.getD ""))
        (event.level.getD "INFO")
        (nsShortOf (event.ns.getD ""))
        (levelColor (event.level.getD "INFO"))
        (pyTakeStr 200 (event.message.getD "")))) ∧
    (jsonParse (pyStrip line) = none →
      renderLine jsonParse line = some (.raw (pyTakeStr 200 (pyStrip line)))) ∧
    levelColor "ERROR" = "#ff4444" ∧
    levelColor "WARNING" = "#ffaa00" ∧
    (∀ level, level ≠ "ERROR" → level ≠ "WARNING" →
      containsSub "SUCCESS".data (pyUpper level).data = true →
      levelColor level = "#00ff88") ∧
    (∀ level, level ≠ "ERROR" → level ≠ "WARNING" →
      containsSub "SUCCESS".data (pyUpper level).data = false →
      levelColor level = "#00d4ff") := by
  have hline : renderLine jsonParse line =
      some (renderNonBlank jsonParse (pyStrip line)) := by
    unfold renderLine
    simp [hnb]
  refine ⟨?_, ?_, rfl, rfl, ?_, ?_⟩
  · intro event hev
    rw [hline]
    unfold renderNonBlank
    rw [hev]
  · intro hev
    rw [hline]
    unfold renderNonBlank
    rw [hev]
  · intro level h1 h2 h3
    unfold levelColor
    rw [if_neg h1, if_neg h2, if_pos h3]
  · intro level h1 h2 h3
    unfold levelColor
    rw [if_neg h1, if_neg h2, if_neg (by simp [h3])]

theorem C5_parse_fallback_witness :
    renderLine (fun _ => none) " plain text " = some (.raw "plain text") ∧
    renderLine
        (fun _ => some { timestamp := some "2024-01-02T03:04:05",
                         level := some "ERROR", message := some "boom",
                         ns := some "agents.core" }) "x" =
      some (.classified "03:04:05" "ERROR" "core" "#ff4444" "boom") ∧
    levelColor "stage_success" = "#00ff88" ∧
    levelColor "DEBUG" = "#00d4ff" :=
  ⟨by
    have h := (C5_parse_fallback (fun _ => none) " plain text "
      (by decide)).2.1 rfl
    exact h.trans (by decide),
   by
    have h := (C5_parse_fallback
      (fun _ => some { timestamp := some "2024-01-02T03:04:05",
                       level := some "ERROR", message := some "boom",
                       ns := some "agents.core" }) "x" (by decide)).1 _ rfl
    exact h.trans (by decide),
   (C5_parse_fallback (fun _ => none) "w" (by decide)).2.2.2.2.1
     "stage_success" (by decide) (by decide) (by decide),
   (C5_parse_fallback (fun _ => none) "w" (by decide)).2.2.2.2.2
     "DEBUG" (by decide) (by decide) (by decide)⟩

/-! ## Claim theorems: guided requirement workflow -/

/-- A session that has been confirmed via the skip-to-spec path: stage
still `input`, confirmed document locked in. -/
def confirmedSampleSession : Session :=
  { step := .input
    initialRequirement := "build a web app"
    guidedInitial := "build a web app"
    requirementsConfirmed := true
    confirmedRequirementText := some "build a web app" }

/-- C2: refuted: from a confirmed session (confirmed via skip-to-spec, so
still at the input stage) the "generate questions" trigger is accepted and
clears `confirmedDocument` and the confirmed flag, so a non-reset trigger
does mutate the confirmation. -/
theorem C2_counterexample :
    confirmedSampleSession.confirmedRequirementText = some "build a web app" ∧
    confirmedSampleSession.requirementsConfirmed = true ∧
    (trigger_generate_questions confirmedSampleSession).1.confirmedRequirementText
      = none ∧
    (trigger_generate_questions confirmedSampleSession).1.requirementsConfirmed
      = false := by
  decide

/-- C2 (amended): confirmation is not sticky against the generation
triggers: fired from a confirmed session (guard satisfied), each of
"generate questions", "generate doc from answers" and "generate doc
without answers" clears `confirmedDocument`; the non-generation,
non-reset triggers "request edit", "submit change" and "back to summary"
leave `confirmedDocument` unchanged. -/
theorem C2_amended_confirmation_not_sticky (s : Session)
    (hc : s.confirmedRequirementText ≠ none) :
    (s.step = .input → pyStrip s.guidedInitial ≠ "" →
      (trigger_generate_questions s).1.confirmedRequirementText = none) ∧
    (s.step = .questions → s.generatedQuestions ≠ [] →
      (trigger_generate_doc_from_answers s).1.confirmedRequirementText = none ∧
      (trigger_generate_doc_without_answers s).1.confirmedRequirementText
        = none) ∧
    (trigger_request_edit s).1.confirmedRequirementText
      = s.confirmedRequirementText ∧
    (trigger_submit_change s).1.confirmedRequirementText
      = s.confirmedRequirementText ∧
    (trigger_back_to_summary s).1.confirmedRequirementText
      = s.confirmedRequirementText := by
  refine ⟨?_, ?_, ?_, ?_, ?_⟩
  · intro h1 h2
    simp [trigger_generate_questions, h1, h2]
  · intro h1 h2
    constructor
    · simp [trigger_generate_doc_from_answers, h1, h2]
    · simp [trigger_generate_doc_without_answers, h1, h2]
  · unfold trigger_request_edit
    split
    · rfl
    · split
      · rfl
      · rfl
  · unfold trigger_submit_change
    split
    · rfl
    · split
      · rfl
      · rfl
  · unfold trigger_back_to_summary
    split
    · rfl
    · rfl

theorem C2_amended_confirmation_not_sticky_witness :
    (trigger_generate_questions confirmedSampleSession).1.confirmedRequirementText
      = none ∧
    (trigger_request_edit confirmedSampleSession).1.confirmedRequirementText
      = confirmedSampleSession.confirmedRequirementText :=
  ⟨(C2_amended_confirmation_not_sticky confirmedSampleSession
      (by decide)).1 rfl (by decide),
    (C2_amended_confirmation_not_sticky confirmedSampleSession
      (by decide)).2.2.1⟩

/-- C3: every guarded trigger fired with an empty or whitespace-only
required field ("generate questions" and "skip to spec" on the
description, "submit change" on the feedback) returns the session
exactly unchanged together with a user-visible validation warning. -/
theorem C3_guard_rejection (s : Session) :
    (s.step = .input → pyStrip s.guidedInitial = "" →
      trigger_generate_questions s = (s, some "请先输入您的项目需求。") ∧
      trigger_skip_to_spec s = (s, some "请先输入您的项目需求。")) ∧
    (s.step = .editing → pyStrip s.guidedEditFeedback = "" →
      trigger_submit_change s = (s, some "请描述您请求的更改。")) := by
  constructor
  · intro h1 h2
    constructor
    · simp [trigger_generate_questions, h1, h2]
    · simp [trigger_skip_to_spec, h1, h2]
  · intro h1 h2
    simp [trigger_submit_change, h1, h2]

theorem C3_guard_rejection_witness :
    trigger_generate_questions { step := .input, guidedInitial := "   " } =
      ({ step := .input, guidedInitial := "   " },
        some "请先输入您的项目需求。") ∧
    trigger_skip_to_spec { step := .input, guidedInitial := "   " } =
      ({ step := .input, guidedInitial := "   " },
        some "请先输入您的项目需求。") ∧
    trigger_submit_change { step := .editing, guidedEditFeedback := " " } =
      ({ step := .editing, guidedEditFeedback := " " },
        some "请描述您请求的更改。") :=
  ⟨((C3_guard_rejection _).1 rfl (by decide)).1,
    ((C3_guard_rejection _).1 rfl (by decide)).2,
    (C3_guard_rejection _).2 rfl (by decide)⟩

/-- C8: `reset(preserveInitial=true)` keeps the description (both the
widget copy and `initial_requirement`) and restores every other workflow
field to its default; `reset(preserveInitial=false)` also clears the
description, leaving the all-defaults session. -/
theorem C8_reset_frame (s : Session) :
    reset_guided_workflow_state true s =
      { step := .input
        initialRequirement := s.initialRequirement
        guidedInitial := s.guidedInitial
        generatedQuestions := []
        answerInputs := []
        userAnswers := []
        detailedRequirements := ""
        questionsGenerating := false
        requirementsGenerating := false
        requirementsConfirmed := false
        requirementsEditing := false
        editFeedback := ""
        guidedEditFeedback := ""
        confirmedRequirementText := none } ∧
    reset_guided_workflow_state false s = {} := by
  constructor
  · rfl
  · rfl

/-- C9: "skip to spec" fired at the input stage with a non-blank
description locks the stripped description in as the confirmed document,
sets the confirmed flag, and leaves the stage at `input` — the
confirmation path that never visits the summary stage. -/
theorem C9_skip_to_spec (s : Session) (hstep : s.step = .input)
    (hne : pyStrip s.guidedInitial ≠ "") :
    trigger_skip_to_spec s =
      ({ s with
          initialRequirement := pyStrip s.guidedInitial
          confirmedRequirementText := some (pyStrip s.guidedInitial)
          requirementsConfirmed := true }, none) ∧
    (trigger_skip_to_spec s).1.step = .input := by
  have h : trigger_skip_to_spec s =
      ({ s with
          initialRequirement := pyStrip s.guidedInitial
          confirmedRequirementText := some (pyStrip s.guidedInitial)
          requirementsConfirmed := true }, none) := by
    simp [trigger_skip_to_spec, hstep, hne]
  exact ⟨h, by rw [h]; exact hstep⟩

theorem C9_skip_to_spec_witness :
    trigger_skip_to_spec { step := .input, guidedInitial := " demo " } =
      ({ step := .input, guidedInitial := " demo ",
         initialRequirement := "demo",
         confirmedRequirementText := some "demo",
         requirementsConfirmed := true }, none) := by
  have h := C9_skip_to_spec { step := .input, guidedInitial := " demo " }
    rfl (by decide)
  exact h.1.trans (by decide)
